import Mathlib

/-!
# A shallow embedding of the retrydb failover query router

`retrydb` wraps a primary and an optional secondary SQL backend and retries
read queries against the secondary when the primary fails or is slow.  This
file embeds the circuit state, the retry/cool-down policy, the per-query
routing algorithm (`RetryDB.Query`), the deferred single-row accessor
(`Row.Scan`) and the pool-size pass-throughs, and proves theorems about them.

Conventions of the embedding:
* timestamps and durations are integers; one unit is one second of the Go
  code (Go durations such as `30 * time.Second` become the integer `30`);
* Go `error` values become `Option Err`, with `none` for `nil` and the
  distinguished sentinel `sql.ErrNoRows` as `Err.errNoRows`; other concrete
  errors carry a numeric code;
* a `*sql.Rows` cursor becomes `Option Rows`, with `none` for a `nil`
  cursor; the `Rows` structure records the observable behaviour of the
  cursor: its trailing error (`Rows.Err()`), whether a first row is
  available (`Rows.Next()`), and the outcomes of `Rows.Scan` and
  `Rows.Close`;
* the two backends become oracle functions from an opaque query identifier
  (query text plus bound arguments) to the outcome that backend would
  return for it; calling the oracle at the same identifier models issuing
  the identical query and parameters;
* the routing step additionally records, as plain data, which backend
  served the caller and the list of arguments passed to `updateRetry`
  during the call, so that claims about "recordFailure was (not) called"
  and "routed to the secondary" are statable.
-/

namespace Retrydb

/-- Go `error` values that matter to the router: the `sql.ErrNoRows`
sentinel, and any other error identified by a numeric code. -/
inductive Err where
  | errNoRows : Err
  | other : Nat → Err
deriving DecidableEq, Repr

/-- Observable behaviour of a `*sql.Rows` cursor: `tag` is the identity of
the cursor (which backend produced it), `trailingErr` is what `Rows.Err()`
returns, `hasRow` is whether the first `Rows.Next()` succeeds, and
`scanErr` / `closeErr` are the outcomes of `Rows.Scan` and `Rows.Close`. -/
structure Rows where
  tag : Nat
  trailingErr : Option Err
  hasRow : Bool
  scanErr : Option Err
  closeErr : Option Err
deriving DecidableEq, Repr

/-- The outcome of `Primary.Query`: the returned cursor, the returned
error, and the measured wall-clock duration of the call. -/
structure PrimaryOutcome where
  rows : Option Rows
  err : Option Err
  duration : Int
deriving DecidableEq, Repr

/-- The outcome of `Secondary.Query`: the returned cursor and error. -/
structure SecondaryOutcome where
  rows : Option Rows
  err : Option Err
deriving DecidableEq, Repr

/-- The mutable circuit state of `RetryDB` guarded by its `RWMutex`:
`retryCount` is the failure streak (`int32` in Go) and `retryUntil` the
blocked-until timestamp.  These are the only health fields the Go struct
has (besides configuration: `maxQueryTime` and `retryStrategy`). -/
structure CircuitState where
  retryCount : Int
  retryUntil : Int
deriving DecidableEq, Repr

/-- `defaultRetryStrategy` from the source: `streak < 4` gives
`streak * 30s`, otherwise a flat `120s`. -/
def defaultRetryStrategy (retryCount : Int) : Int :=
  if retryCount < 4 then retryCount * 30 else 120

/-- `RetryDB.updateRetry` from the source.  On success (`e = none`) it sets
`retryCount = 0` and `retryUntil = now`.  On failure it first increments
`retryCount` and then computes the cool-down from the incremented value:
`retryUntil = now + strategy (retryCount + 1)`. -/
def updateRetry (strategy : Int → Int) (now : Int) (e : Option Err)
    (s : CircuitState) : CircuitState :=
  match e with
  | none => { retryCount := 0, retryUntil := now }
  | some _ =>
    { retryCount := s.retryCount + 1
      retryUntil := now + strategy (s.retryCount + 1) }

/-- `getFatalError` from the source: the primary error if it is non-nil and
not `sql.ErrNoRows`; else, if a cursor was returned, its trailing error if
that is non-nil and not `sql.ErrNoRows`; else `none`. -/
def getFatalError (a : Option Err) (r : Option Rows) : Option Err :=
  if a ≠ none ∧ a ≠ some Err.errNoRows then a
  else
    match r with
    | none => none
    | some rw =>
      if rw.trailingErr ≠ none ∧ rw.trailingErr ≠ some Err.errNoRows then
        rw.trailingErr
      else none

/-- The error `errors.New("query took too long")` recorded when a
successful primary query exceeds `maxQueryTime`. -/
def tooLongErr : Err := Err.other 1

/-- Everything a single `RetryDB.Query` call produces: the cursor and error
returned to the caller, the circuit state after the call, whether the
secondary backend served the returned result, and the arguments of every
`updateRetry` call made during the step (`some e` is a failure recording,
`none` a success recording). -/
structure QueryResult where
  rows : Option Rows
  err : Option Err
  state : CircuitState
  usedSecondary : Bool
  updateRetryArgs : List (Option Err)
deriving DecidableEq, Repr

/-- `RetryDB.Query` from the source, as one step over the circuit state.
`primaryDB` and `secondaryDB` are the backend oracles, `start` the value of
`time.Now()` taken at the top of the call, `q` the opaque identifier of the
query text plus bound arguments.  The `time.Now()` inside `updateRetry` is
modelled as `start + duration` (the recording happens right after the
primary query returns). -/
def Query (maxQueryTime : Int) (strategy : Int → Int)
    (primaryDB : Nat → PrimaryOutcome)
    (secondaryDB : Option (Nat → SecondaryOutcome))
    (start : Int) (q : Nat) (s : CircuitState) : QueryResult :=
  match secondaryDB with
  | none =>
    let p := primaryDB q
    { rows := p.rows, err := p.err, state := s
      usedSecondary := false, updateRetryArgs := [] }
  | some secondary =>
    if start < s.retryUntil then
      let r := secondary q
      { rows := r.rows, err := r.err, state := s
        usedSecondary := true, updateRetryArgs := [] }
    else
      let p := primaryDB q
      if getFatalError p.err p.rows ≠ none then
        let s1 := updateRetry strategy (start + p.duration)
          (getFatalError p.err p.rows) s
        let r := secondary q
        { rows := r.rows, err := r.err, state := s1
          usedSecondary := true
          updateRetryArgs := [getFatalError p.err p.rows] }
      else if p.duration > maxQueryTime then
        { rows := p.rows, err := p.err
          state := updateRetry strategy (start + p.duration) (some tooLongErr) s
          usedSecondary := false
          updateRetryArgs := [some tooLongErr] }
      else if s.retryCount > 0 then
        { rows := p.rows, err := p.err
          state := updateRetry strategy (start + p.duration) none s
          usedSecondary := false
          updateRetryArgs := [none] }
      else
        { rows := p.rows, err := p.err, state := s
          usedSecondary := false, updateRetryArgs := [] }

/-- The deferred single-row result (`Row` in the source): exactly one of
the deferred error and the live cursor is meaningful. -/
structure Row where
  err : Option Err
  rows : Option Rows
deriving DecidableEq, Repr

/-- `RetryDB.QueryRow` from the source: run `Query` and wrap its cursor and
error in a `Row`, deferring the error to `Scan`. -/
def QueryRow (maxQueryTime : Int) (strategy : Int → Int)
    (primaryDB : Nat → PrimaryOutcome)
    (secondaryDB : Option (Nat → SecondaryOutcome))
    (start : Int) (q : Nat) (s : CircuitState) : Row × CircuitState :=
  let r := Query maxQueryTime strategy primaryDB secondaryDB start q s
  ({ err := r.err, rows := r.rows }, r.state)

/-- A destination argument of `Row.Scan`: either a `*sql.RawBytes`
destination (rejected) or any ordinary destination. -/
inductive Dest where
  | rawBytes : Dest
  | value : Dest
deriving DecidableEq, Repr

/-- An operation performed on the underlying cursor during `Row.Scan`. -/
inductive CursorOp where
  | next : CursorOp
  | scanCols : CursorOp
  | close : CursorOp
deriving DecidableEq, Repr

/-- The usage error `errors.New("sql: RawBytes isn~t allowed on Row.Scan")`
returned for a raw-bytes destination. -/
def rawBytesErr : Err := Err.other 2

/-- The body of `Row.Scan` once the deferred-error check has passed: the
`defer r.rows.Close()` contributes the final `close` on every exit path;
destinations are checked for `RawBytes` before the cursor is advanced; then
`Next`, `Scan` and an explicit `Close` happen in order.  Returns the error
given to the caller and the ordered list of cursor operations. -/
def rowsScanBody (c : Rows) (dest : List Dest) : Option Err × List CursorOp :=
  if dest.contains Dest.rawBytes then
    (some rawBytesErr, [CursorOp.close])
  else if ¬ c.hasRow then
    ((match c.trailingErr with
      | some e => some e
      | none => some Err.errNoRows),
     [CursorOp.next, CursorOp.close])
  else
    match c.scanErr with
    | some e => (some e, [CursorOp.next, CursorOp.scanCols, CursorOp.close])
    | none =>
      match c.closeErr with
      | some e =>
        (some e,
         [CursorOp.next, CursorOp.scanCols, CursorOp.close, CursorOp.close])
      | none =>
        (none,
         [CursorOp.next, CursorOp.scanCols, CursorOp.close, CursorOp.close])

/-- `Row.Scan` from the source.  If the deferred error is set it is
returned unchanged with no cursor operation at all; otherwise the cursor is
consumed by `rowsScanBody`.  The outer `Option` is `none` exactly when the
Go code would dereference a `nil` cursor (never reached for rows built by
`QueryRow` from a non-failed query). -/
def Row.Scan (r : Row) (dest : List Dest) :
    Option (Option Err × List CursorOp) :=
  match r.err with
  | some e => some (some e, [])
  | none => r.rows.map (fun c => rowsScanBody c dest)

/-- A backend handle as seen by the pool-size setters: whether the dynamic
type assertion `.( *sql.DB)` succeeds, and the two pool limits. -/
structure Backend where
  isSqlDB : Bool
  maxOpen : Int
  maxIdle : Int
deriving DecidableEq, Repr

/-- `(*sql.DB).SetMaxOpenConns` on one backend. -/
def sqlSetMaxOpenConns (n : Int) (b : Backend) : Backend :=
  { b with maxOpen := n }

/-- `(*sql.DB).SetMaxIdleConns` on one backend. -/
def sqlSetMaxIdleConns (n : Int) (b : Backend) : Backend :=
  { b with maxIdle := n }

/-- `RetryDB.SetMaxOpenConns` from the source: forward to each backend
whose type assertion succeeds; silently skip the others. -/
def SetMaxOpenConns (n : Int) (primary : Backend)
    (secondary : Option Backend) : Backend × Option Backend :=
  let p := if primary.isSqlDB then sqlSetMaxOpenConns n primary else primary
  let s :=
    match secondary with
    | none => none
    | some sb => some (if sb.isSqlDB then sqlSetMaxOpenConns n sb else sb)
  (p, s)

/-- `RetryDB.SetMaxIdleConns` from the source, verbatim: on the primary the
code calls `db.SetMaxOpenConns(n)` (not `SetMaxIdleConns`), on the
secondary it calls `db.SetMaxIdleConns(n)`. -/
def SetMaxIdleConns (n : Int) (primary : Backend)
    (secondary : Option Backend) : Backend × Option Backend :=
  let p := if primary.isSqlDB then sqlSetMaxOpenConns n primary else primary
  let s :=
    match secondary with
    | none => none
    | some sb => some (if sb.isSqlDB then sqlSetMaxIdleConns n sb else sb)
  (p, s)

/-- C1 counterexample: the claim predicts that the very first qualifying
failure (streak 0) yields cool-down `policy(0) = 0s`, i.e.
`retryUntil = now + defaultRetryStrategy 0`.  The code increments the
streak before evaluating the strategy, so the first failure at `now = 0`
sets `retryUntil = 30`, not `0`. -/
theorem updateRetry_first_failure_cooldown_not_zero :
    ¬ ((updateRetry defaultRetryStrategy 0 (some (Err.other 0))
        { retryCount := 0, retryUntil := 0 }).retryUntil =
       0 + defaultRetryStrategy 0) := by
  decide

/-- Claim C1 (amended): for every failure recording, `updateRetry` first
increments the failure streak and computes the cool-down from the
post-increment value: it leaves the state at
`retryCount = streak + 1, retryUntil = now + policy (streak + 1)`; under
the default policy the very first qualifying failure therefore yields a
30-second cool-down. -/
theorem updateRetry_failure_post_increment (strategy : Int → Int)
    (now : Int) (e : Err) (s : CircuitState) :
    updateRetry strategy now (some e) s =
      { retryCount := s.retryCount + 1
        retryUntil := now + strategy (s.retryCount + 1) } ∧
    (updateRetry defaultRetryStrategy now (some e)
        { retryCount := 0, retryUntil := s.retryUntil }).retryUntil =
      now + 30 := by
  refine ⟨rfl, ?_⟩
  norm_num [updateRetry, defaultRetryStrategy]

/-- Claim C2: while the circuit is tripped (`start < retryUntil`) and a
secondary is configured, `Query` returns the secondary's cursor and error
as-is, leaves the circuit state unchanged, and performs no `updateRetry`
call at all. -/
theorem Query_tripped_diverts_to_secondary (maxQueryTime : Int)
    (strategy : Int → Int) (primaryDB : Nat → PrimaryOutcome)
    (secondary : Nat → SecondaryOutcome) (start : Int) (q : Nat)
    (s : CircuitState) (h : start < s.retryUntil) :
    Query maxQueryTime strategy primaryDB (some secondary) start q s =
      { rows := (secondary q).rows, err := (secondary q).err, state := s
        usedSecondary := true, updateRetryArgs := [] } := by
  simp [Query, h]

/-- Witness for C2: a concrete tripped call (`start = 0 < retryUntil = 10`)
returns the secondary's erroring outcome untouched and keeps the state. -/
theorem Query_tripped_diverts_to_secondary_witness :
    Query 30 defaultRetryStrategy (fun _ => ⟨none, none, 0⟩)
      (some (fun _ => ⟨none, some (Err.other 5)⟩)) 0 0
      { retryCount := 2, retryUntil := 10 } =
      { rows := none, err := some (Err.other 5)
        state := { retryCount := 2, retryUntil := 10 }
        usedSecondary := true, updateRetryArgs := [] } :=
  Query_tripped_diverts_to_secondary 30 defaultRetryStrategy
    (fun _ => ⟨none, none, 0⟩) (fun _ => ⟨none, some (Err.other 5)⟩)
    0 0 { retryCount := 2, retryUntil := 10 } (by decide)

/-- Claim C3: an outcome is fatal (`getFatalError ≠ none`) iff the primary
error is non-nil and not the no-rows sentinel, or the returned cursor
carries a trailing error that is non-nil and not that sentinel; and a
non-fatal, not-slow primary outcome (so in particular a bare no-rows
outcome) never records a failure and never routes the query to the
secondary. -/
theorem getFatalError_characterization (a : Option Err) (r : Option Rows)
    (maxQueryTime : Int) (strategy : Int → Int)
    (primaryDB : Nat → PrimaryOutcome) (secondary : Nat → SecondaryOutcome)
    (start : Int) (q : Nat) (s : CircuitState)
    (hnt : ¬ start < s.retryUntil)
    (hnf : getFatalError (primaryDB q).err (primaryDB q).rows = none)
    (hfast : ¬ (primaryDB q).duration > maxQueryTime) :
    (getFatalError a r ≠ none ↔
      ((a ≠ none ∧ a ≠ some Err.errNoRows) ∨
       (∃ rw, r = some rw ∧ rw.trailingErr ≠ none ∧
         rw.trailingErr ≠ some Err.errNoRows))) ∧
    (Query maxQueryTime strategy primaryDB (some secondary) start q s
      ).usedSecondary = false ∧
    ((Query maxQueryTime strategy primaryDB (some secondary) start q s
       ).updateRetryArgs = [] ∨
     (Query maxQueryTime strategy primaryDB (some secondary) start q s
       ).updateRetryArgs = [none]) := by
  refine ⟨?_, ?_, ?_⟩
  · unfold getFatalError
    rcases r with _ | rw
    · split_ifs <;> simp_all
    · split_ifs <;> simp_all
  · by_cases hc : s.retryCount > 0 <;> simp [Query, hnt, hnf, hfast, hc]
  · by_cases hc : s.retryCount > 0
    · right
      simp [Query, hnt, hnf, hfast, hc]
    · left
      simp [Query, hnt, hnf, hfast, hc]

/-- Witness for C3: a primary outcome that returns `sql.ErrNoRows` and a
cursor whose trailing error is also `sql.ErrNoRows` stays on the primary
and records nothing. -/
theorem getFatalError_characterization_witness :
    (Query 30 defaultRetryStrategy
      (fun _ => ⟨some ⟨3, some Err.errNoRows, false, none, none⟩,
        some Err.errNoRows, 4⟩)
      (some (fun _ => ⟨none, none⟩)) 0 0
      { retryCount := 0, retryUntil := 0 }).usedSecondary = false :=
  (getFatalError_characterization (some Err.errNoRows)
    (some ⟨3, some Err.errNoRows, false, none, none⟩) 30 defaultRetryStrategy
    (fun _ => ⟨some ⟨3, some Err.errNoRows, false, none, none⟩,
      some Err.errNoRows, 4⟩)
    (fun _ => ⟨none, none⟩) 0 0 { retryCount := 0, retryUntil := 0 }
    (by decide) (by decide) (by decide)).2.1

/-- Claim C4: when the circuit is not tripped and the primary outcome is
fatal, `Query` records the failure (one `updateRetry` call carrying the
fatal error) and re-issues the same query identifier `q` against the
secondary, returning exactly the secondary's cursor and error — the
primary's error does not appear in the returned value. -/
theorem Query_fatal_reissues_secondary (maxQueryTime : Int)
    (strategy : Int → Int) (primaryDB : Nat → PrimaryOutcome)
    (secondary : Nat → SecondaryOutcome) (start : Int) (q : Nat)
    (s : CircuitState) (hnt : ¬ start < s.retryUntil)
    (hf : getFatalError (primaryDB q).err (primaryDB q).rows ≠ none) :
    Query maxQueryTime strategy primaryDB (some secondary) start q s =
      { rows := (secondary q).rows, err := (secondary q).err
        state := updateRetry strategy (start + (primaryDB q).duration)
          (getFatalError (primaryDB q).err (primaryDB q).rows) s
        usedSecondary := true
        updateRetryArgs :=
          [getFatalError (primaryDB q).err (primaryDB q).rows] } := by
  simp [Query, hnt, hf]

/-- Witness for C4: a fatal primary error (code 7) with a healthy
secondary: the caller gets the secondary's cursor with a `none` error, the
streak becomes 1 and the fatal error was recorded. -/
theorem Query_fatal_reissues_secondary_witness :
    Query 30 defaultRetryStrategy (fun _ => ⟨none, some (Err.other 7), 3⟩)
      (some (fun _ => ⟨some ⟨9, none, true, none, none⟩, none⟩)) 0 4
      { retryCount := 0, retryUntil := 0 } =
      { rows := some ⟨9, none, true, none, none⟩, err := none
        state := { retryCount := 1, retryUntil := 33 }
        usedSecondary := true
        updateRetryArgs := [some (Err.other 7)] } :=
  (Query_fatal_reissues_secondary 30 defaultRetryStrategy
    (fun _ => ⟨none, some (Err.other 7), 3⟩)
    (fun _ => ⟨some ⟨9, none, true, none, none⟩, none⟩) 0 4
    { retryCount := 0, retryUntil := 0 } (by decide) (by decide)).trans
    (by decide)

/-- Claim C5: a successful primary query that exceeds `maxQueryTime`
records a failure (the "query took too long" error) but still returns the
primary's result without re-routing; and any later call that starts within
the resulting cool-down window is diverted to the secondary. -/
theorem Query_slow_success_trips_returns_primary (maxQueryTime : Int)
    (strategy : Int → Int) (primaryDB : Nat → PrimaryOutcome)
    (secondary : Nat → SecondaryOutcome) (start : Int) (q : Nat)
    (s : CircuitState) (hnt : ¬ start < s.retryUntil)
    (hnf : getFatalError (primaryDB q).err (primaryDB q).rows = none)
    (hslow : (primaryDB q).duration > maxQueryTime) :
    Query maxQueryTime strategy primaryDB (some secondary) start q s =
      { rows := (primaryDB q).rows, err := (primaryDB q).err
        state := updateRetry strategy (start + (primaryDB q).duration)
          (some tooLongErr) s
        usedSecondary := false
        updateRetryArgs := [some tooLongErr] } ∧
    (∀ (primaryDB2 : Nat → PrimaryOutcome) (t : Int) (q2 : Nat),
      t < (updateRetry strategy (start + (primaryDB q).duration)
            (some tooLongErr) s).retryUntil →
      (Query maxQueryTime strategy primaryDB2 (some secondary) t q2
          (updateRetry strategy (start + (primaryDB q).duration)
            (some tooLongErr) s)).usedSecondary = true) := by
  constructor
  · simp [Query, hnt, hnf, hslow]
  · intro primaryDB2 t q2 ht
    simp [Query, ht]

/-- Witness for C5 (the spec scenario, in seconds instead of
milliseconds): threshold 30, a successful primary call of duration 50
returns the primary rows yet trips the circuit until time 80, and the next
call at time 60 is diverted to the secondary. -/
theorem Query_slow_success_trips_returns_primary_witness :
    Query 30 defaultRetryStrategy
        (fun _ => ⟨some ⟨1, none, true, none, none⟩, none, 50⟩)
        (some (fun _ => ⟨some ⟨2, none, true, none, none⟩, none⟩)) 0 0
        { retryCount := 0, retryUntil := 0 } =
      { rows := some ⟨1, none, true, none, none⟩, err := none
        state := { retryCount := 1, retryUntil := 80 }
        usedSecondary := false
        updateRetryArgs := [some tooLongErr] } ∧
    (Query 30 defaultRetryStrategy
        (fun _ => ⟨some ⟨1, none, true, none, none⟩, none, 50⟩)
        (some (fun _ => ⟨some ⟨2, none, true, none, none⟩, none⟩)) 60 1
        (updateRetry defaultRetryStrategy (0 + 50) (some tooLongErr)
          { retryCount := 0, retryUntil := 0 })).usedSecondary = true := by
  have h := Query_slow_success_trips_returns_primary 30 defaultRetryStrategy
    (fun _ => ⟨some ⟨1, none, true, none, none⟩, none, 50⟩)
    (fun _ => ⟨some ⟨2, none, true, none, none⟩, none⟩) 0 0
    { retryCount := 0, retryUntil := 0 } (by decide) (by decide) (by decide)
  exact ⟨h.1.trans (by decide),
    h.2 (fun _ => ⟨some ⟨1, none, true, none, none⟩, none, 50⟩) 60 1
      (by decide)⟩

/-- Claim C6: a successful, fast primary query made while the failure
streak is already 0 leaves the whole circuit state unchanged, makes no
`updateRetry` call (so no transition is emitted), and returns the
primary's cursor and error. -/
theorem Query_success_zero_streak_noop (maxQueryTime : Int)
    (strategy : Int → Int) (primaryDB : Nat → PrimaryOutcome)
    (secondary : Nat → SecondaryOutcome) (start : Int) (q : Nat)
    (s : CircuitState) (hnt : ¬ start < s.retryUntil)
    (hnf : getFatalError (primaryDB q).err (primaryDB q).rows = none)
    (hfast : ¬ (primaryDB q).duration > maxQueryTime)
    (h0 : s.retryCount = 0) :
    Query maxQueryTime strategy primaryDB (some secondary) start q s =
      { rows := (primaryDB q).rows, err := (primaryDB q).err, state := s
        usedSecondary := false, updateRetryArgs := [] } := by
  have hc : ¬ s.retryCount > 0 := by omega
  simp [Query, hnt, hnf, hfast, hc]

/-- Witness for C6: a fast successful primary call on an idle circuit
(streak 0, unblocked) changes nothing. -/
theorem Query_success_zero_streak_noop_witness :
    Query 30 defaultRetryStrategy
      (fun _ => ⟨some ⟨1, none, true, none, none⟩, none, 2⟩)
      (some (fun _ => ⟨none, none⟩)) 100 0
      { retryCount := 0, retryUntil := 50 } =
      { rows := some ⟨1, none, true, none, none⟩, err := none
        state := { retryCount := 0, retryUntil := 50 }
        usedSecondary := false, updateRetryArgs := [] } :=
  (Query_success_zero_streak_noop 30 defaultRetryStrategy
    (fun _ => ⟨some ⟨1, none, true, none, none⟩, none, 2⟩)
    (fun _ => ⟨none, none⟩) 100 0 { retryCount := 0, retryUntil := 50 }
    (by decide) (by decide) (by decide) (by decide)).trans (by decide)

/-- Claim C8: with no secondary configured, `Query` forwards directly to
the primary and returns its outcome; the circuit state is untouched and no
`updateRetry` call happens, whatever the primary outcome was. -/
theorem Query_no_secondary_passthrough (maxQueryTime : Int)
    (strategy : Int → Int) (primaryDB : Nat → PrimaryOutcome)
    (start : Int) (q : Nat) (s : CircuitState) :
    Query maxQueryTime strategy primaryDB none start q s =
      { rows := (primaryDB q).rows, err := (primaryDB q).err, state := s
        usedSecondary := false, updateRetryArgs := [] } := rfl

/-- C7 counterexample: the source `RetryDB` struct has no
`secondaryDivertCount` field (its only health fields are `retryCount` and
`retryUntil`), and a query served by the secondary during the tripped
window leaves that state completely unchanged — so no circuit-state
counter is incremented on a tripped-window divert, contrary to the
claim. -/
theorem no_divert_counter_counterexample :
    Query 30 defaultRetryStrategy (fun _ => ⟨none, none, 0⟩)
      (some (fun _ => ⟨none, none⟩)) 0 0
      { retryCount := 3, retryUntil := 100 } =
      { rows := none, err := none
        state := { retryCount := 3, retryUntil := 100 }
        usedSecondary := true, updateRetryArgs := [] } := by
  decide

/-- Claim C7 (amended): the circuit state maintains no divert counter — a
query diverted to the secondary during the tripped window leaves the
circuit state entirely unchanged, and success recording resets only
`retryCount` (to 0) and `retryUntil` (to now). -/
theorem Query_divert_leaves_state_unchanged (maxQueryTime : Int)
    (strategy : Int → Int) (primaryDB : Nat → PrimaryOutcome)
    (secondary : Nat → SecondaryOutcome) (start : Int) (q : Nat) (t : Int)
    (s : CircuitState) (h : start < s.retryUntil) :
    (Query maxQueryTime strategy primaryDB (some secondary) start q s
      ).state = s ∧
    (Query maxQueryTime strategy primaryDB (some secondary) start q s
      ).usedSecondary = true ∧
    updateRetry strategy t none s = { retryCount := 0, retryUntil := t } := by
  refine ⟨?_, ?_, rfl⟩ <;> simp [Query, h]

/-- Witness for the amended C7: a concrete tripped-window divert keeps the
state `(streak 3, blocked until 100)`, and a success recording at time 42
resets it to `(0, 42)`. -/
theorem Query_divert_leaves_state_unchanged_witness :
    (Query 30 defaultRetryStrategy (fun _ => ⟨none, none, 0⟩)
        (some (fun _ => ⟨none, none⟩)) 5 2
        { retryCount := 3, retryUntil := 100 }).state =
      { retryCount := 3, retryUntil := 100 } ∧
    updateRetry defaultRetryStrategy 42 none
        { retryCount := 3, retryUntil := 100 } =
      { retryCount := 0, retryUntil := 42 } := by
  have h := Query_divert_leaves_state_unchanged 30 defaultRetryStrategy
    (fun _ => ⟨none, none, 0⟩) (fun _ => ⟨none, none⟩) 5 2 42
    { retryCount := 3, retryUntil := 100 } (by decide)
  exact ⟨h.1, h.2.2⟩

/-- Claim C9: a deferred single-row result carrying a deferred error
returns exactly that error from `Scan`, with an empty list of cursor
operations (no advance, no decode, no release); and `QueryRow` builds the
row directly from the underlying query's error and cursor, so a failed
query yields such a row. -/
theorem Row_Scan_deferred_error (r : Row) (dest : List Dest) (e : Err)
    (maxQueryTime : Int) (strategy : Int → Int)
    (primaryDB : Nat → PrimaryOutcome)
    (secondaryDB : Option (Nat → SecondaryOutcome)) (start : Int) (q : Nat)
    (s : CircuitState) (h : r.err = some e) :
    Row.Scan r dest = some (some e, []) ∧
    (QueryRow maxQueryTime strategy primaryDB secondaryDB start q s).1 =
      { err := (Query maxQueryTime strategy primaryDB secondaryDB
                  start q s).err
        rows := (Query maxQueryTime strategy primaryDB secondaryDB
                  start q s).rows } := by
  refine ⟨?_, rfl⟩
  simp [Row.Scan, h]

/-- Witness for C9: a row holding error code 3 — even with a live cursor
attached — scans to that error with no cursor operation. -/
theorem Row_Scan_deferred_error_witness :
    Row.Scan { err := some (Err.other 3)
               rows := some ⟨1, none, true, none, none⟩ } [Dest.value] =
      some (some (Err.other 3), []) :=
  (Row_Scan_deferred_error
    { err := some (Err.other 3), rows := some ⟨1, none, true, none, none⟩ }
    [Dest.value] (Err.other 3) 30 defaultRetryStrategy
    (fun _ => ⟨none, none, 0⟩) none 0 0
    { retryCount := 0, retryUntil := 0 } (by decide)).1

/-- C10 evidence: `SetMaxIdleConns 7` on a `*sql.DB` primary sets the
primary's max-OPEN limit to 7 and leaves its max-idle limit untouched
(while correctly setting max-idle on the secondary) — diverging from the
claim and from the source doc comment, which say the max-idle limit is
propagated to both backends.  For contrast, `SetMaxOpenConns` forwards
correctly to both, and a backend failing the `*sql.DB` type assertion is
silently skipped. -/
theorem SetMaxIdleConns_sets_open_on_primary :
    SetMaxIdleConns 7 { isSqlDB := true, maxOpen := 0, maxIdle := 0 }
      (some { isSqlDB := true, maxOpen := 0, maxIdle := 0 }) =
      ({ isSqlDB := true, maxOpen := 7, maxIdle := 0 },
       some { isSqlDB := true, maxOpen := 0, maxIdle := 7 }) ∧
    SetMaxOpenConns 7 { isSqlDB := true, maxOpen := 0, maxIdle := 0 }
      (some { isSqlDB := true, maxOpen := 0, maxIdle := 0 }) =
      ({ isSqlDB := true, maxOpen := 7, maxIdle := 0 },
       some { isSqlDB := true, maxOpen := 7, maxIdle := 0 }) ∧
    SetMaxIdleConns 7 { isSqlDB := false, maxOpen := 1, maxIdle := 1 }
      (some { isSqlDB := false, maxOpen := 1, maxIdle := 1 }) =
      ({ isSqlDB := false, maxOpen := 1, maxIdle := 1 },
       some { isSqlDB := false, maxOpen := 1, maxIdle := 1 }) := by
  decide

end Retrydb
